import Mathlib

/-!
Verification of the BookStore CRUD service (`src/part-4/app.py`).

The service keeps a single table of `Book` rows and exposes six
operations (list, get, create, update, delete, search).  We embed the
store as a list of rows together with the next id the store will hand
out, and each route handler as a pure function from the store and the
decoded request to a response (`Except ApiError _`) and the post state.

Modelling conventions, matching the Python source:
* a decoded JSON body is a `BookData`: the four recognised keys, each
  `Option` (absent vs. present), plus a flag recording whether the dict
  carried any further keys (only its emptiness matters to the code);
  JSON `null` values for present keys are not modelled;
* Python string truthiness (`if not data.get('title')`) is `truthy`;
* `int(s)` from `search_books` is `pyToInt?` (strip surrounding
  whitespace, optional single sign, decimal digits);
* `column.ilike('%x%')` is `likeMatch` on case-folded character lists:
  SQL `LIKE` patterns where `%` matches any sequence and `_` any single
  character, with the default ASCII-only case folding (`lowerChar`);
* the uncaught Python `ValueError` raised by `int(s)` surfaces as the
  `ApiError.uncaught` constructor (a 500, not one of the handled 400s);
* `db.session.commit()` enforces the `unique=True` column on `isbn`
  (the `Book` model, with the table created by `db.create_all()`):
  under SQLite `UNIQUE` semantics only NULLs are exempt — two equal
  non-NULL values, the empty string included, collide — so a commit
  that would persist a duplicate `isbn` raises `IntegrityError`, which
  no handler catches (`ApiError.uncaught`, a 500) and persists nothing.
-/

namespace BookApi

/-- A persisted Book row (model `Book` in `app.py`): `id` primary key,
`title`/`author` required strings, optional `year` and `isbn`, and the
creation timestamp (abstracted to a `Nat`). -/
structure Book where
  id : Nat
  title : String
  author : String
  year : Option Int
  isbn : Option String
  createdAt : Nat
deriving Repr, DecidableEq

/-- The persistent store: the table of Book rows in insertion order, and
the id the autoincrementing primary key will assign next. -/
structure Store where
  books : List Book
  nextId : Nat
deriving Repr, DecidableEq

/-- A decoded JSON request body as the handlers read it: the four keys
the code looks at, each one `none` when the key is absent, plus whether
the object carried any other keys (the code only ever tests the dict
for emptiness beyond the four keys). -/
structure BookData where
  title : Option String
  author : Option String
  year : Option Int
  isbn : Option String
  others : Bool
deriving Repr, DecidableEq

/-- Python truthiness of `data.get(k)` for a string-valued key: `None`
and the empty string are falsy. -/
def truthy : Option String → Bool
  | none => false
  | some s => s != ""

/-- Python truthiness of the decoded dict itself (`if not data`): an
empty dict is falsy. -/
def BookData.isEmpty (d : BookData) : Bool :=
  d.title.isNone && d.author.isNone && d.year.isNone && d.isbn.isNone && !d.others

/-- The failure responses produced by the handlers: the handled 400s
and 404s carry the literal message from `app.py`; `uncaught` stands for
an exception the code does not catch (HTTP 500). -/
inductive ApiError where
  | badRequest (msg : String)
  | notFound (msg : String)
  | uncaught (msg : String)
deriving Repr, DecidableEq

/-- HTTP status paired with each failure class. -/
def ApiError.status : ApiError → Nat
  | .badRequest _ => 400
  | .notFound _ => 404
  | .uncaught _ => 500

instance {ε α : Type} [DecidableEq ε] [DecidableEq α] : DecidableEq (Except ε α) := fun x y =>
  match x, y with
  | .ok a, .ok b =>
    if h : a = b then .isTrue (by rw [h])
    else .isFalse (by intro hc; injection hc; contradiction)
  | .error a, .error b =>
    if h : a = b then .isTrue (by rw [h])
    else .isFalse (by intro hc; injection hc; contradiction)
  | .ok _, .error _ => .isFalse (by intro hc; exact Except.noConfusion hc)
  | .error _, .ok _ => .isFalse (by intro hc; exact Except.noConfusion hc)

/-- GET `/api/books` (`get_books`): all rows. -/
def get_books (s : Store) : List Book :=
  s.books

/-- GET `/api/books/<id>` (`get_book`): `Book.query.get(id)`, 404 when
absent. -/
def get_book (s : Store) (id : Nat) : Except ApiError Book :=
  match s.books.find? (fun b => b.id == id) with
  | none => .error (.notFound "Book not found")
  | some b => .ok b

/-- The row `create_book` inserts on success: the store's next id, the
body's title and author (present whenever this row is built), the
optional year and isbn as given, and the current time. -/
def freshBook (s : Store) (now : Nat) (d : BookData) : Book :=
  { id := s.nextId
    title := d.title.getD ""
    author := d.author.getD ""
    year := d.year
    isbn := d.isbn
    createdAt := now }

/-- POST `/api/books` (`create_book`): reject an empty body, then
missing/empty title or author, then a duplicate of a truthy isbn; then
`db.session.commit()` inserts the new row with the next free id —
unless the row's isbn (`d.isbn`, any present value, the empty string
included) duplicates an existing row's isbn, in which case the
`unique=True` column makes the commit raise an uncaught
`IntegrityError` and nothing is persisted. -/
def create_book (s : Store) (now : Nat) (d : BookData) : Except ApiError Book × Store :=
  if d.isEmpty then
    (.error (.badRequest "No data provided"), s)
  else if !truthy d.title || !truthy d.author then
    (.error (.badRequest "Title and author are required"), s)
  else if truthy d.isbn && s.books.any (fun b => b.isbn == d.isbn) then
    (.error (.badRequest "ISBN already exists"), s)
  else if d.isbn.isSome && s.books.any (fun c => c.isbn == d.isbn) then
    (.error (.uncaught "UNIQUE constraint failed: book.isbn"), s)
  else
    (.ok (freshBook s now d),
     { books := s.books ++ [freshBook s now d], nextId := s.nextId + 1 })

/-- The row as `update_book` mutates it before committing: exactly the
keys present in the body overwritten, every other field kept. -/
def updatedBook (book : Book) (d : BookData) : Book :=
  { book with
    title := d.title.getD book.title
    author := d.author.getD book.author
    year := match d.year with | some y => some y | none => book.year
    isbn := match d.isbn with | some i => some i | none => book.isbn }

/-- PUT `/api/books/<id>` (`update_book`): 404 when the id is absent,
400 on an empty body, otherwise overwrite exactly the keys present in
the body and commit — unless the mutated row's isbn is present and
duplicates another row's isbn (a row with a different primary key), in
which case the `unique=True` column makes the commit raise an uncaught
`IntegrityError` and the persisted table is unchanged. -/
def update_book (s : Store) (id : Nat) (d : BookData) : Except ApiError Book × Store :=
  match s.books.find? (fun b => b.id == id) with
  | none => (.error (.notFound "Book not found"), s)
  | some book =>
    if d.isEmpty then
      (.error (.badRequest "No data provided"), s)
    else if (updatedBook book d).isbn.isSome
        && s.books.any (fun c => c.id != id && c.isbn == (updatedBook book d).isbn) then
      (.error (.uncaught "UNIQUE constraint failed: book.isbn"), s)
    else
      (.ok (updatedBook book d),
       { s with books := s.books.map (fun b => if b.id == id then updatedBook book d else b) })

/-- DELETE `/api/books/<id>` (`delete_book`): 404 when the id is
absent, otherwise remove the row with that primary key. -/
def delete_book (s : Store) (id : Nat) : Except ApiError Unit × Store :=
  match s.books.find? (fun b => b.id == id) with
  | none => (.error (.notFound "Book not found"), s)
  | some _ => (.ok (), { s with books := s.books.filter (fun b => b.id != id) })

/-- Case folding applied by SQLite's default `LIKE` (hence by `ilike`
on this backend): ASCII letters only, every other character is left
unchanged. -/
def lowerChar (c : Char) : Char :=
  match c with
  | 'A' => 'a' | 'B' => 'b' | 'C' => 'c' | 'D' => 'd' | 'E' => 'e'
  | 'F' => 'f' | 'G' => 'g' | 'H' => 'h' | 'I' => 'i' | 'J' => 'j'
  | 'K' => 'k' | 'L' => 'l' | 'M' => 'm' | 'N' => 'n' | 'O' => 'o'
  | 'P' => 'p' | 'Q' => 'q' | 'R' => 'r' | 'S' => 's' | 'T' => 't'
  | 'U' => 'u' | 'V' => 'v' | 'W' => 'w' | 'X' => 'x' | 'Y' => 'y'
  | 'Z' => 'z' | c => c

/-- A string as its case-folded character list. -/
def lowerChars (s : String) : List Char :=
  s.data.map lowerChar

/-- All suffixes of a list, the list itself and the empty suffix
included. -/
def suffixes : List α → List (List α)
  | [] => [[]]
  | c :: t => (c :: t) :: suffixes t

/-- SQL `LIKE` pattern matching over case-folded characters: in the
pattern (first argument) `%` matches any sequence — i.e. the rest of
the pattern matches some suffix — `_` matches any one character, and
anything else matches itself. -/
def likeMatch : List Char → List Char → Bool
  | [], hay => hay.isEmpty
  | p :: ps, hay =>
    if p == '%' then
      (suffixes hay).any (fun t => likeMatch ps t)
    else
      match hay with
      | [] => false
      | c :: t => (p == '_' || p == c) && likeMatch ps t

/-- Whether `pat` occurs at the start of `hay` (literal characters). -/
def startsWithSeq : List Char → List Char → Bool
  | _, [] => true
  | [], _ :: _ => false
  | c :: hay, p :: ps => (p == c) && startsWithSeq hay ps

/-- Whether `pat` occurs contiguously anywhere in `hay` (literal,
unanchored substring containment). -/
def containsSeq : List Char → List Char → Bool
  | [], pat => pat.isEmpty
  | c :: hay, pat => startsWithSeq (c :: hay) pat || containsSeq hay pat

/-- Decimal digit run as a number, or `none` when the characters are
not all digits (or there are none). -/
def parseDigits : List Char → Option Nat
  | [] => none
  | cs =>
    if cs.all Char.isDigit then
      some (cs.foldl (fun n c => 10 * n + (c.toNat - 48)) 0)
    else none

/-- Whitespace as Python's `int` strips it. -/
def isSpaceChar (c : Char) : Bool :=
  c == ' ' || c == '\t' || c == '\n' || c == '\r' || c == '\x0b' || c == '\x0c'

/-- Surrounding whitespace removed from a character list. -/
def trimChars (cs : List Char) : List Char :=
  ((cs.dropWhile isSpaceChar).reverse.dropWhile isSpaceChar).reverse

/-- Python's `int(s)` on a string: surrounding whitespace stripped, an
optional single sign, then decimal digits; everything else raises
`ValueError` (here: `none`). -/
def pyToInt? (s : String) : Option Int :=
  match trimChars s.data with
  | '-' :: cs => (parseDigits cs).map (fun n => -(n : Int))
  | '+' :: cs => (parseDigits cs).map (fun n => (n : Int))
  | cs => (parseDigits cs).map (fun n => (n : Int))

/-- The `?q=` step of `search_books`: when the title parameter is
truthy, keep the rows whose title `ilike`-matches `%q%`. -/
def applyTitle (bs : List Book) : Option String → List Book
  | none => bs
  | some t =>
    if t != "" then
      bs.filter (fun b => likeMatch (lowerChars ("%" ++ t ++ "%")) (lowerChars b.title))
    else bs

/-- The `?author=` step of `search_books`: same shape as the title
step, over the author column. -/
def applyAuthor (bs : List Book) : Option String → List Book
  | none => bs
  | some a =>
    if a != "" then
      bs.filter (fun b => likeMatch (lowerChars ("%" ++ a ++ "%")) (lowerChars b.author))
    else bs

/-- The `?year=` step of `search_books`: when the year parameter is
truthy the code runs `int(year)` — an unparseable string raises an
uncaught `ValueError` — and otherwise filters on equality. -/
def applyYear (bs : List Book) : Option String → Except ApiError (List Book)
  | none => .ok bs
  | some y =>
    if y != "" then
      match pyToInt? y with
      | none => .error (.uncaught "invalid literal for int() with base 10")
      | some n => .ok (bs.filter (fun b => b.year == some n))
    else .ok bs

/-- GET `/api/books/search` (`search_books`): the three optional
filters applied in the source's order. -/
def search_books (s : Store) (q a y : Option String) : Except ApiError (List Book) :=
  applyYear (applyAuthor (applyTitle s.books q) a) y

/-- Data-model invariant (§3): no two rows share the same non-null
(`some`, the empty string included — SQLite `UNIQUE` exempts NULLs
only) isbn: for every row with a present isbn, no later row repeats
it. -/
def noDupIsbn : List Book → Bool
  | [] => true
  | b :: t => (!b.isbn.isSome || t.all (fun c => b.isbn != c.isbn)) && noDupIsbn t

/-- The same invariant on an ordered pair of rows: the first row's
isbn, when present, differs from the second's. -/
def isbnOk (b c : Book) : Prop :=
  b.isbn.isSome = true → b.isbn ≠ c.isbn

/-- Store well-formedness: rows carry pairwise distinct primary keys
(as the database guarantees for every reachable table). -/
def idsNodup : List Book → Bool
  | [] => true
  | b :: t => t.all (fun c => b.id != c.id) && idsNodup t

/-- Data-model invariant (§3): every persisted row has a non-empty
title and a non-empty author. -/
def nonEmptyTA (l : List Book) : Bool :=
  l.all (fun b => b.title != "" && b.author != "")

/-- Store well-formedness: ids already handed out are below the next
free id (so a fresh insert never collides). -/
def idsBelow (s : Store) : Bool :=
  s.books.all (fun b => decide (b.id < s.nextId))

/-- Whether a character is not a `LIKE` wildcard. -/
def wildFreeChar (c : Char) : Bool :=
  c != '%' && c != '_'

/-- Whether a filter string contains no `LIKE` wildcard. -/
def wildFree (t : String) : Bool :=
  t.data.all wildFreeChar

/-- Spec-side title filter (§4 search, stated from the spec's words): a
provided title parameter matches case-insensitively as an unanchored
substring of the title. -/
def specTitleMatch (q : Option String) (b : Book) : Bool :=
  match q with
  | none => true
  | some t => containsSeq (lowerChars b.title) (lowerChars t)

/-- Spec-side author filter (§4 search, stated from the spec's words),
same shape as the title filter. -/
def specAuthorMatch (a : Option String) (b : Book) : Bool :=
  match a with
  | none => true
  | some t => containsSeq (lowerChars b.author) (lowerChars t)

/-- Spec-side year filter (§4 search, stated from the spec's words):
a provided, non-empty, parseable year parameter matches on equality
(the unparseable case is the failure C3 is about, not a filter). -/
def specYearMatch (y : Option String) (b : Book) : Bool :=
  match y with
  | none => true
  | some t =>
    if t == "" then true
    else
      match pyToInt? t with
      | some n => b.year == some n
      | none => true

/-- Spec-side search predicate (§4): the conjunction of the provided
filters. -/
def specMatch (q a y : Option String) (b : Book) : Bool :=
  specTitleMatch q b && specAuthorMatch a b && specYearMatch y b

/-- Sample row: the Dune record of the §8 scenario. -/
def bDune : Book :=
  { id := 1, title := "Dune", author := "Frank Herbert", year := some 1965
    isbn := some "111", createdAt := 0 }

/-- Sample row with no isbn. -/
def bPlain : Book :=
  { id := 2, title := "Hamlet", author := "Shakespeare", year := none
    isbn := none, createdAt := 0 }

/-- Sample row whose isbn is the empty string. -/
def bEmptyIsbn : Book :=
  { id := 1, title := "Void", author := "Nobody", year := none
    isbn := some "", createdAt := 0 }

/-- Sample row whose title is the two letters `AB`. -/
def bAB : Book :=
  { id := 1, title := "AB", author := "someone", year := some 2000
    isbn := none, createdAt := 0 }

/-- Store holding only the Dune record. -/
def sDune : Store := { books := [bDune], nextId := 2 }

/-- Store holding the Dune record and an isbn-less record. -/
def sTwo : Store := { books := [bDune, bPlain], nextId := 3 }

/-- Store holding one record whose isbn is the empty string. -/
def sEmptyIsbn : Store := { books := [bEmptyIsbn], nextId := 2 }

/-- Store holding the `AB`-titled record. -/
def sAB : Store := { books := [bAB], nextId := 2 }

/-- Request body with no recognised key and no other key. -/
def dEmpty : BookData :=
  { title := none, author := none, year := none, isbn := none, others := false }

/-- Request body carrying only the already-used isbn `111`. -/
def dIsbn111 : BookData :=
  { title := none, author := none, year := none, isbn := some "111", others := false }

/-- Request body carrying only an empty title. -/
def dEmptyTitle : BookData :=
  { title := some "", author := none, year := none, isbn := none, others := false }

/-- Request body carrying only the year 2023. -/
def dYear2023 : BookData :=
  { title := none, author := none, year := some 2023, isbn := none, others := false }

/-- Valid create body that reuses the isbn `111`. -/
def dDune2 : BookData :=
  { title := some "Dune Messiah", author := some "Frank Herbert", year := none
    isbn := some "111", others := false }

/-- Valid create body whose isbn is the empty string. -/
def dXY : BookData :=
  { title := some "X", author := some "Y", year := none, isbn := some "", others := false }

/-- Valid create body with no isbn. -/
def dNew : BookData :=
  { title := some "New Title", author := some "New Author", year := none
    isbn := none, others := false }

/-- The Dune record with its year overwritten to 2023. -/
def bDuneYear : Book := { bDune with year := some 2023 }

/-- The store after updating the Dune record's year. -/
def sDuneYear : Store := { books := [bDuneYear], nextId := 2 }

/-- An `all` check survives restriction to a filtered sublist. -/
theorem all_filter_of_all {α : Type} {l : List α} {p q : α → Bool} (h : l.all q = true) :
    (l.filter p).all q = true := by
  rw [List.all_eq_true] at h ⊢
  intro x hx
  exact h x (List.mem_filter.mp hx).1

/-- The Boolean invariant check is pairwise `isbnOk` over the rows. -/
theorem noDupIsbn_iff_pairwise {l : List Book} :
    noDupIsbn l = true ↔ l.Pairwise isbnOk := by
  induction l with
  | nil => simp [noDupIsbn]
  | cons b t ih =>
    simp only [noDupIsbn, Bool.and_eq_true, Bool.or_eq_true, List.pairwise_cons, ih]
    constructor
    · rintro ⟨h1, h2⟩
      refine ⟨?_, h2⟩
      intro c hc hsome
      rcases h1 with h1 | h1
      · rw [Bool.not_eq_true'] at h1
        rw [h1] at hsome
        exact absurd hsome (by simp)
      · exact bne_iff_ne.mp ((List.all_eq_true.mp h1) c hc)
    · rintro ⟨h1, h2⟩
      refine ⟨?_, h2⟩
      by_cases hs : b.isbn.isSome = true
      · right
        rw [List.all_eq_true]
        intro c hc
        exact bne_iff_ne.mpr (h1 c hc hs)
      · left
        rw [Bool.not_eq_true] at hs
        simp [hs]

/-- Distinct primary keys, pairwise. -/
theorem idsNodup_pairwise {l : List Book} (h : idsNodup l = true) :
    l.Pairwise (fun a b => a.id ≠ b.id) := by
  induction l with
  | nil => exact List.Pairwise.nil
  | cons b t ih =>
    simp only [idsNodup, Bool.and_eq_true] at h
    rw [List.pairwise_cons]
    refine ⟨?_, ih h.2⟩
    intro c hc
    exact bne_iff_ne.mp ((List.all_eq_true.mp h.1) c hc)

/-- The empty suffix is always enumerated. -/
theorem empty_mem_suffixes (hay : List Char) : [] ∈ suffixes hay := by
  induction hay with
  | nil => simp [suffixes]
  | cons c t ih => exact List.mem_cons_of_mem _ ih

/-- An empty pattern starts every string. -/
theorem startsWithSeq_nil (hay : List Char) : startsWithSeq hay [] = true := by
  cases hay <;> rfl

/-- Only an empty pattern starts the empty string. -/
theorem startsWithSeq_nil_left (pat : List Char) : startsWithSeq [] pat = pat.isEmpty := by
  cases pat <;> rfl

/-- The empty pattern is contained in every string. -/
theorem containsSeq_nil (hay : List Char) : containsSeq hay [] = true := by
  cases hay with
  | nil => rfl
  | cons c t => simp [containsSeq, startsWithSeq_nil]

/-- Substring containment is a search for a starting suffix. -/
theorem containsSeq_eq_any_suffixes (hay pat : List Char) :
    containsSeq hay pat = (suffixes hay).any (fun t => startsWithSeq t pat) := by
  induction hay with
  | nil => simp [containsSeq, suffixes, startsWithSeq_nil_left]
  | cons c t ih => simp [containsSeq, suffixes, List.any_cons, ih]

/-- A wildcard-free pattern with a trailing `%` `LIKE`-matches exactly
the strings it starts. -/
theorem likeMatch_wildfree_pct {pat : List Char} (hp : pat.all wildFreeChar = true) :
    ∀ hay, likeMatch (pat ++ ['%']) hay = startsWithSeq hay pat := by
  induction pat with
  | nil =>
    intro hay
    rw [List.nil_append, startsWithSeq_nil]
    show likeMatch ['%'] hay = true
    simp only [likeMatch]
    rw [if_pos (by decide), List.any_eq_true]
    exact ⟨[], empty_mem_suffixes hay, rfl⟩
  | cons p ps ih =>
    intro hay
    simp only [List.all_cons, Bool.and_eq_true] at hp
    have hw := hp.1
    unfold wildFreeChar at hw
    simp only [Bool.and_eq_true, bne_iff_ne, ne_eq] at hw
    have hpct : (p == '%') = false := by simpa using hw.1
    have hus : (p == '_') = false := by simpa using hw.2
    cases hay with
    | nil =>
      simp only [List.cons_append, likeMatch, hpct, Bool.false_eq_true, if_false]
      rfl
    | cons c t =>
      simp only [List.cons_append, likeMatch, hpct, Bool.false_eq_true, if_false,
        startsWithSeq, hus, Bool.false_or, List.append_eq, ih hp.2]

/-- A `%pat%` `LIKE` pattern with `pat` wildcard-free matches exactly
the strings containing `pat`. -/
theorem likeMatch_contains {pat : List Char} (hp : pat.all wildFreeChar = true)
    (hay : List Char) :
    likeMatch ('%' :: (pat ++ ['%'])) hay = containsSeq hay pat := by
  have h1 : likeMatch ('%' :: (pat ++ ['%'])) hay
      = (suffixes hay).any (fun t => likeMatch (pat ++ ['%']) t) := by
    simp only [likeMatch]
    rw [if_pos (by decide)]
  rw [h1, containsSeq_eq_any_suffixes]
  simp only [likeMatch_wildfree_pct hp]

/-- Case folding maps no character onto a `LIKE` wildcard. -/
theorem lowerChar_wildFree {c : Char} (h : wildFreeChar c = true) :
    wildFreeChar (lowerChar c) = true := by
  unfold lowerChar
  split <;> first | rfl | exact h

/-- Case folding a wildcard-free filter keeps it wildcard-free. -/
theorem lowerChars_wildFree {t : String} (h : wildFree t = true) :
    (lowerChars t).all wildFreeChar = true := by
  unfold wildFree at h
  unfold lowerChars
  rw [List.all_map]
  rw [List.all_eq_true] at h ⊢
  intro x hx
  exact lowerChar_wildFree (h x hx)

/-- Case folding fixes the `%` wildcard. -/
theorem lowerChar_pct : lowerChar '%' = '%' := by decide

/-- The case-folded characters of the `'%{t}%'` f-string. -/
theorem lowerChars_pct_pat (t : String) :
    lowerChars ("%" ++ t ++ "%") = '%' :: (lowerChars t ++ ['%']) := by
  unfold lowerChars
  simp [String.data_append, lowerChar_pct]

/-- On a wildcard-free title parameter the code's `ilike` step is the
spec's case-insensitive substring filter. -/
theorem applyTitle_eq_filter {bs : List Book} {q : Option String}
    (hq : q.all wildFree = true) :
    applyTitle bs q = bs.filter (fun b => specTitleMatch q b) := by
  cases q with
  | none =>
    show bs = bs.filter (fun b => specTitleMatch none b)
    exact (List.filter_eq_self.mpr (fun a _ => rfl)).symm
  | some t =>
    rw [Option.all_some] at hq
    by_cases ht : t = ""
    · subst ht
      show bs = bs.filter (fun b => specTitleMatch (some "") b)
      refine (List.filter_eq_self.mpr (fun a _ => ?_)).symm
      show containsSeq (lowerChars a.title) (lowerChars "") = true
      exact containsSeq_nil _
    · simp only [applyTitle]
      rw [if_pos (by simpa [bne_iff_ne] using ht)]
      refine List.filter_congr (fun b _ => ?_)
      rw [lowerChars_pct_pat, likeMatch_contains (lowerChars_wildFree hq)]
      rfl

/-- On a wildcard-free author parameter the code's `ilike` step is the
spec's case-insensitive substring filter. -/
theorem applyAuthor_eq_filter {bs : List Book} {a : Option String}
    (ha : a.all wildFree = true) :
    applyAuthor bs a = bs.filter (fun b => specAuthorMatch a b) := by
  cases a with
  | none =>
    show bs = bs.filter (fun b => specAuthorMatch none b)
    exact (List.filter_eq_self.mpr (fun x _ => rfl)).symm
  | some t =>
    rw [Option.all_some] at ha
    by_cases ht : t = ""
    · subst ht
      show bs = bs.filter (fun b => specAuthorMatch (some "") b)
      refine (List.filter_eq_self.mpr (fun x _ => ?_)).symm
      show containsSeq (lowerChars x.author) (lowerChars "") = true
      exact containsSeq_nil _
    · simp only [applyAuthor]
      rw [if_pos (by simpa [bne_iff_ne] using ht)]
      refine List.filter_congr (fun b _ => ?_)
      rw [lowerChars_pct_pat, likeMatch_contains (lowerChars_wildFree ha)]
      rfl

/-- On an absent, empty, or parseable year parameter the code's year
step succeeds and is the spec's equality filter. -/
theorem applyYear_eq_filter {bs : List Book} {y : Option String}
    (hy : y.all (fun t => t == "" || (pyToInt? t).isSome) = true) :
    applyYear bs y = .ok (bs.filter (fun b => specYearMatch y b)) := by
  cases y with
  | none =>
    show .ok bs = Except.ok (bs.filter (fun b => specYearMatch none b))
    exact congrArg Except.ok (List.filter_eq_self.mpr (fun x _ => rfl)).symm
  | some t =>
    rw [Option.all_some] at hy
    by_cases ht : t = ""
    · subst ht
      show Except.ok bs = Except.ok (bs.filter (fun b => specYearMatch (some "") b))
      exact congrArg Except.ok (List.filter_eq_self.mpr (fun x _ => rfl)).symm
    · rw [Bool.or_eq_true] at hy
      rcases hy with hy | hy
      · exact absurd (by simpa using hy) ht
      · cases hp : pyToInt? t with
        | none => rw [hp] at hy; simp at hy
        | some n =>
          simp only [applyYear]
          rw [if_pos (by simpa [bne_iff_ne] using ht), hp]
          show Except.ok (bs.filter (fun b => b.year == some n))
            = Except.ok (bs.filter (fun b => specYearMatch (some t) b))
          congr 1
          refine List.filter_congr (fun b _ => ?_)
          show (b.year == some n) = specYearMatch (some t) b
          simp [specYearMatch, hp, ht]

/-- C4: for every existing Book id and every accepted update input,
update applies exactly the fields present in the input and every other
field of that Book — id and created_at included — retains its prior
value; rows with other ids are untouched. -/
theorem update_applies_exactly_given_fields (s : Store) (id : Nat) (d : BookData)
    (b0 : Book) (hget : get_book s id = .ok b0) (b1 : Book) (s' : Store)
    (hupd : update_book s id d = (.ok b1, s')) :
    b1.id = b0.id ∧ b1.createdAt = b0.createdAt ∧
    b1.title = d.title.getD b0.title ∧
    b1.author = d.author.getD b0.author ∧
    b1.year = (match d.year with | some y => some y | none => b0.year) ∧
    b1.isbn = (match d.isbn with | some i => some i | none => b0.isbn) ∧
    s'.nextId = s.nextId ∧ s'.books.length = s.books.length ∧
    (∀ c ∈ s.books, c.id ≠ id → c ∈ s'.books) ∧
    (∀ c ∈ s'.books, c.id ≠ id → c ∈ s.books) := by
  unfold get_book at hget
  unfold update_book at hupd
  cases hfind : s.books.find? (fun b => b.id == id) with
  | none => rw [hfind] at hget; simp at hget
  | some bk =>
    rw [hfind] at hget hupd
    dsimp only [] at hupd
    have hb0 : bk = b0 := by simpa using hget
    subst hb0
    have hid : bk.id = id := by simpa using List.find?_some hfind
    by_cases hde : d.isEmpty = true
    · rw [if_pos hde] at hupd; simp at hupd
    · rw [if_neg hde] at hupd
      by_cases hcommit : ((updatedBook bk d).isbn.isSome
          && s.books.any (fun c => c.id != id && c.isbn == (updatedBook bk d).isbn)) = true
      · rw [if_pos hcommit] at hupd; simp at hupd
      · rw [if_neg hcommit] at hupd
        rw [Prod.mk.injEq] at hupd
        obtain ⟨hb, hs⟩ := hupd
        have hb1 : b1 = updatedBook bk d := by simpa using hb.symm
        subst hb1
        subst hs
        refine ⟨rfl, rfl, rfl, rfl, rfl, rfl, rfl, by simp, ?_, ?_⟩
        · intro c hc hne
          refine List.mem_map.mpr ⟨c, hc, ?_⟩
          rw [if_neg (by simp [hne])]
        · intro c hcm hne
          obtain ⟨x, hx, hfx⟩ := List.mem_map.mp hcm
          by_cases hxid : (x.id == id) = true
          · rw [if_pos hxid] at hfx
            rw [← hfx] at hne
            exact absurd hid hne
          · rw [if_neg hxid] at hfx
            rw [← hfx]
            exact hx

/-- C4 witness: updating the Dune record with only a year changes
exactly the year and keeps title, author and isbn. -/
theorem update_applies_exactly_given_fields_witness :
    bDuneYear.year = (match dYear2023.year with | some y => some y | none => bDune.year) ∧
    bDuneYear.title = dYear2023.title.getD bDune.title ∧
    bDuneYear.isbn = (match dYear2023.isbn with | some i => some i | none => bDune.isbn) ∧
    bDuneYear.id = bDune.id ∧ bDuneYear.createdAt = bDune.createdAt := by
  have h := update_applies_exactly_given_fields sDune 1 dYear2023 bDune rfl
    bDuneYear sDuneYear rfl
  exact ⟨h.2.2.2.2.1, h.2.2.1, h.2.2.2.2.2.1, h.1, h.2.1⟩

/-- C5 (amended): when the input's title and author pass validation and
its isbn is a non-empty string already used by an existing Book, create
fails with the ConflictError response and leaves the store unchanged. -/
theorem create_dup_isbn_conflict (s : Store) (now : Nat) (d : BookData) (v : String)
    (hv : d.isbn = some v) (hvne : v ≠ "") (ht : truthy d.title = true)
    (ha : truthy d.author = true) (c : Book) (hc : c ∈ s.books) (hci : c.isbn = some v) :
    create_book s now d = (.error (.badRequest "ISBN already exists"), s) := by
  have hde : d.isEmpty = false := by
    cases hd : d.title with
    | none => rw [hd] at ht; simp [truthy] at ht
    | some x => simp [BookData.isEmpty, hd]
  have hguard : (truthy d.isbn && s.books.any (fun b => b.isbn == d.isbn)) = true := by
    rw [Bool.and_eq_true]
    refine ⟨by simp [truthy, hv, bne_iff_ne, hvne], ?_⟩
    rw [List.any_eq_true]
    exact ⟨c, hc, by simp [hci, hv]⟩
  unfold create_book
  rw [if_neg (by simp [hde]), if_neg (by simp [ht, ha]), if_pos hguard]

/-- C5 witness: the §8 scenario — with the Dune record persisted, a
valid second create reusing isbn `111` fails with the conflict
response and the store is unchanged. -/
theorem create_dup_isbn_conflict_witness :
    create_book sDune 0 dDune2 = (.error (.badRequest "ISBN already exists"), sDune) :=
  create_dup_isbn_conflict sDune 0 dDune2 "111" rfl (by decide) (by decide) (by decide)
    bDune (by decide) rfl

/-- C5 counterexample: with the Dune record persisted, a create input
carrying the duplicate isbn `111` but an empty title fails with the
validation response, not the ConflictError response — the claim's
"regardless of the other field values" fails on the code. -/
theorem create_dup_isbn_cex :
    create_book sDune 0
        { title := some "", author := some "x", year := none
          isbn := some "111", others := false } =
      (.error (.badRequest "Title and author are required"), sDune) ∧
    ApiError.badRequest "Title and author are required" ≠
      ApiError.badRequest "ISBN already exists" := by decide

/-- C6: for every well-formed store and every valid create input
(non-empty title and author, isbn absent or unused), create succeeds,
the assigned id collides with no pre-existing Book, and a get with that
id returns a record carrying exactly the given title and author. -/
theorem create_then_get (s : Store) (hwf : idsBelow s = true) (now : Nat) (d : BookData)
    (t a : String) (ht : d.title = some t) (htne : t ≠ "") (ha : d.author = some a)
    (hane : a ≠ "") (hisbn : d.isbn = none ∨ ∀ c ∈ s.books, c.isbn ≠ d.isbn) :
    create_book s now d =
      (.ok (freshBook s now d),
       { books := s.books ++ [freshBook s now d], nextId := s.nextId + 1 }) ∧
    (freshBook s now d).title = t ∧ (freshBook s now d).author = a ∧
    (∀ c ∈ s.books, c.id ≠ (freshBook s now d).id) ∧
    get_book { books := s.books ++ [freshBook s now d], nextId := s.nextId + 1 }
      (freshBook s now d).id = .ok (freshBook s now d) := by
  have hde : d.isEmpty = false := by simp [BookData.isEmpty, ht]
  have htt : truthy d.title = true := by simp [truthy, ht, bne_iff_ne, htne]
  have hta : truthy d.author = true := by simp [truthy, ha, bne_iff_ne, hane]
  have hguard : (truthy d.isbn && s.books.any (fun b => b.isbn == d.isbn)) = false := by
    rcases hisbn with h | h
    · simp [truthy, h]
    · rw [Bool.and_eq_false_iff]
      right
      rw [List.any_eq_false]
      intro c hc
      simp only [beq_iff_eq]
      exact h c hc
  have hcommit : (d.isbn.isSome && s.books.any (fun c => c.isbn == d.isbn)) = false := by
    rcases hisbn with h | h
    · simp [h]
    · rw [Bool.and_eq_false_iff]
      right
      rw [List.any_eq_false]
      intro c hc
      simp only [beq_iff_eq]
      exact h c hc
  refine ⟨?_, by simp [freshBook, ht], by simp [freshBook, ha], ?_, ?_⟩
  · unfold create_book
    rw [if_neg (by simp [hde]), if_neg (by simp [htt, hta]), if_neg (by simp [hguard]),
      if_neg (by simp [hcommit])]
  · intro c hc
    have hlt : c.id < s.nextId := of_decide_eq_true ((List.all_eq_true.mp hwf) c hc)
    exact Nat.ne_of_lt hlt
  · unfold get_book
    have h1 : (s.books ++ [freshBook s now d]).find?
        (fun b => b.id == (freshBook s now d).id) = some (freshBook s now d) := by
      rw [List.find?_append]
      have hnone : s.books.find? (fun b => b.id == (freshBook s now d).id) = none := by
        rw [List.find?_eq_none]
        intro x hx
        have hlt : x.id < s.nextId := of_decide_eq_true ((List.all_eq_true.mp hwf) x hx)
        show ¬(x.id == (freshBook s now d).id) = true
        simp [freshBook, Nat.ne_of_lt hlt]
      rw [hnone, Option.none_or]
      simp [List.find?_cons]
    rw [h1]

/-- C6 witness: creating a valid record in the Dune store assigns the
fresh id 2 and a subsequent get returns exactly that record. -/
theorem create_then_get_witness :
    create_book sDune 0 dNew =
      (.ok (freshBook sDune 0 dNew),
       { books := sDune.books ++ [freshBook sDune 0 dNew], nextId := 3 }) ∧
    get_book { books := sDune.books ++ [freshBook sDune 0 dNew], nextId := 3 }
      (freshBook sDune 0 dNew).id = .ok (freshBook sDune 0 dNew) := by
  have h := create_then_get sDune (by decide) 0 dNew "New Title" "New Author" rfl
    (by decide) rfl (by decide) (Or.inl rfl)
  exact ⟨h.1, h.2.2.2.2⟩

/-- C8: after a successful delete of an id no row with that id remains
and get on it yields the 404 response; deleting an id that holds no
Book itself yields the 404 response and leaves the store unchanged. -/
theorem delete_then_get (s : Store) (id : Nat) :
    (∀ s', delete_book s id = (.ok (), s') →
      (∀ c ∈ s'.books, c.id ≠ id) ∧
      get_book s' id = .error (.notFound "Book not found")) ∧
    (get_book s id = .error (.notFound "Book not found") →
      delete_book s id = (.error (.notFound "Book not found"), s)) := by
  constructor
  · intro s' h
    unfold delete_book at h
    cases hfind : s.books.find? (fun b => b.id == id) with
    | none => rw [hfind] at h; simp at h
    | some bk =>
      rw [hfind] at h
      rw [Prod.mk.injEq] at h
      obtain ⟨-, hs⟩ := h
      subst hs
      constructor
      · intro c hc
        have hcne := (List.mem_filter.mp hc).2
        simpa [bne_iff_ne] using hcne
      · unfold get_book
        have hnone : (s.books.filter (fun b => b.id != id)).find?
            (fun b => b.id == id) = none := by
          rw [List.find?_eq_none]
          intro x hx
          have hxne := (List.mem_filter.mp hx).2
          rw [bne_iff_ne] at hxne
          simp [hxne]
        rw [hnone]
  · intro hget
    unfold get_book at hget
    unfold delete_book
    cases hfind : s.books.find? (fun b => b.id == id) with
    | none => rfl
    | some bk => rw [hfind] at hget; simp at hget

/-- C8 witness: deleting the only record of the Dune store makes the
following get yield the 404 response. -/
theorem delete_then_get_witness :
    get_book (delete_book sDune 1).2 1 = .error (.notFound "Book not found") :=
  ((delete_then_get sDune 1).1 (delete_book sDune 1).2 rfl).2

/-- C9: updating an existing Book with a body that decodes to the empty
JSON object fails with the 400 `No data provided` response and leaves
the store unchanged. -/
theorem update_empty_body_rejected (s : Store) (id : Nat) (b : Book)
    (hb : get_book s id = .ok b) (d : BookData) (hd : d.isEmpty = true) :
    update_book s id d = (.error (.badRequest "No data provided"), s) ∧
    (ApiError.badRequest "No data provided").status = 400 := by
  refine ⟨?_, rfl⟩
  unfold get_book at hb
  unfold update_book
  cases hfind : s.books.find? (fun b => b.id == id) with
  | none => rw [hfind] at hb; simp at hb
  | some bk =>
    show (if d.isEmpty = true then (Except.error (ApiError.badRequest "No data provided"), s)
      else _) = _
    rw [if_pos hd]

/-- C9 witness: the empty body against the persisted Dune record. -/
theorem update_empty_body_rejected_witness :
    update_book sDune 1 dEmpty = (.error (.badRequest "No data provided"), sDune) ∧
    (ApiError.badRequest "No data provided").status = 400 :=
  update_empty_body_rejected sDune 1 bDune rfl dEmpty rfl

/-- C10 counterexample: with a Book holding isbn `""` already
persisted, a valid create input whose isbn is the empty string skips
the app-level duplicate check but is NOT created: the `UNIQUE (isbn)`
column treats `""` as a value, so the commit raises the uncaught
`IntegrityError` and the store is unchanged. -/
theorem create_empty_isbn_cex :
    create_book sEmptyIsbn 0 dXY =
      (.error (.uncaught "UNIQUE constraint failed: book.isbn"), sEmptyIsbn) ∧
    (create_book sEmptyIsbn 0 dXY).1.isOk = false := by decide

/-- C10 (amended): a create input whose isbn is the empty string never
reaches the ConflictError response (the app-level duplicate check is
skipped because `""` is falsy); when its title and author pass
validation, the Book is created with the empty string stored as its
isbn provided no other Book already has an empty-string isbn — if one
does, the store-level `UNIQUE` constraint makes the commit raise an
uncaught `IntegrityError` (500) and no Book is created. -/
theorem create_empty_isbn_skips_check (s : Store) (now : Nat) (d : BookData)
    (hi : d.isbn = some "") :
    ((create_book s now d).1 ≠ .error (.badRequest "ISBN already exists")) ∧
    (∀ t a, d.title = some t → t ≠ "" → d.author = some a → a ≠ "" →
      ((∀ c ∈ s.books, c.isbn ≠ some "") →
        create_book s now d =
          (.ok (freshBook s now d),
           { books := s.books ++ [freshBook s now d], nextId := s.nextId + 1 }) ∧
        (freshBook s now d).isbn = some "") ∧
      (∀ c ∈ s.books, c.isbn = some "" →
        create_book s now d =
          (.error (.uncaught "UNIQUE constraint failed: book.isbn"), s))) := by
  have hde : d.isEmpty = false := by simp [BookData.isEmpty, hi]
  have hguard : (truthy d.isbn && s.books.any (fun b => b.isbn == d.isbn)) = false := by
    simp [truthy, hi]
  constructor
  · unfold create_book
    rw [if_neg (by simp [hde])]
    by_cases hv : (!truthy d.title || !truthy d.author) = true
    · rw [if_pos hv]
      show Except.error (ApiError.badRequest "Title and author are required")
          ≠ Except.error (ApiError.badRequest "ISBN already exists")
      decide
    · rw [if_neg hv, if_neg (by simp [hguard])]
      by_cases hcm : (d.isbn.isSome && s.books.any (fun c => c.isbn == d.isbn)) = true
      · rw [if_pos hcm]
        show Except.error (ApiError.uncaught "UNIQUE constraint failed: book.isbn")
            ≠ Except.error (ApiError.badRequest "ISBN already exists")
        decide
      · rw [if_neg hcm]
        simp
  · intro t a ht htne ha hane
    have htt : truthy d.title = true := by simp [truthy, ht, bne_iff_ne, htne]
    have hta : truthy d.author = true := by simp [truthy, ha, bne_iff_ne, hane]
    constructor
    · intro hfree
      have hcm : (d.isbn.isSome && s.books.any (fun c => c.isbn == d.isbn)) = false := by
        rw [Bool.and_eq_false_iff]
        right
        rw [List.any_eq_false]
        intro c hc
        simp only [beq_iff_eq, hi]
        exact hfree c hc
      constructor
      · unfold create_book
        rw [if_neg (by simp [hde]), if_neg (by simp [htt, hta]),
          if_neg (by simp [hguard]), if_neg (by simp [hcm])]
      · simp [freshBook, hi]
    · intro c hc hce
      have hcm : (d.isbn.isSome && s.books.any (fun x => x.isbn == d.isbn)) = true := by
        rw [Bool.and_eq_true]
        refine ⟨by simp [hi], ?_⟩
        rw [List.any_eq_true]
        exact ⟨c, hc, by simp [hce, hi]⟩
      unfold create_book
      rw [if_neg (by simp [hde]), if_neg (by simp [htt, hta]),
        if_neg (by simp [hguard]), if_pos hcm]

/-- C10 witness: against the empty-isbn-free Dune store the empty-isbn
create succeeds and stores `""`; against a store already holding an
empty-string isbn, the same input makes the commit raise. -/
theorem create_empty_isbn_skips_check_witness :
    (create_book sDune 0 dXY =
      (.ok (freshBook sDune 0 dXY),
       { books := sDune.books ++ [freshBook sDune 0 dXY], nextId := 3 }) ∧
     (freshBook sDune 0 dXY).isbn = some "") ∧
    create_book sEmptyIsbn 0 dXY =
      (.error (.uncaught "UNIQUE constraint failed: book.isbn"), sEmptyIsbn) :=
  ⟨((create_empty_isbn_skips_check sDune 0 dXY rfl).2 "X" "Y" rfl (by decide)
      rfl (by decide)).1 (by decide),
   ((create_empty_isbn_skips_check sEmptyIsbn 0 dXY rfl).2 "X" "Y" rfl (by decide)
      rfl (by decide)).2 bEmptyIsbn (by decide) rfl⟩

/-- C1: no two persisted Books share the same non-null isbn, and every
operation preserves this invariant: create and update either respect
it or fail — with an app-level 400 or with the commit-time
`UNIQUE (isbn)` `IntegrityError` — leaving the store unchanged, and
delete only removes rows; in particular, for every existing Book, an
update call on a different Book whose input contains that Book's isbn
leaves the invariant intact (that call fails at commit and persists
nothing). -/
theorem isbn_unique_invariant :
    (∀ s now d, noDupIsbn s.books = true →
      noDupIsbn (create_book s now d).2.books = true) ∧
    (∀ s id d, idsNodup s.books = true → noDupIsbn s.books = true →
      noDupIsbn (update_book s id d).2.books = true) ∧
    (∀ s id, noDupIsbn s.books = true →
      noDupIsbn (delete_book s id).2.books = true) ∧
    (∀ s id d c, idsNodup s.books = true → noDupIsbn s.books = true →
      c ∈ s.books → c.id ≠ id → d.isbn = c.isbn →
      noDupIsbn (update_book s id d).2.books = true) := by
  have hupd : ∀ s id d, idsNodup s.books = true → noDupIsbn s.books = true →
      noDupIsbn (update_book s id d).2.books = true := by
    intro s id d hnd h
    unfold update_book
    cases hfind : s.books.find? (fun b => b.id == id) with
    | none => exact h
    | some bk =>
      dsimp only []
      by_cases h1 : d.isEmpty = true
      · rw [if_pos h1]; exact h
      · rw [if_neg h1]
        by_cases h2 : ((updatedBook bk d).isbn.isSome
            && s.books.any (fun c => c.id != id && c.isbn == (updatedBook bk d).isbn)) = true
        · rw [if_pos h2]; exact h
        · rw [if_neg h2]
          show noDupIsbn
            (s.books.map (fun b => if b.id == id then updatedBook bk d else b)) = true
          rw [noDupIsbn_iff_pairwise] at h ⊢
          rw [List.pairwise_map]
          rw [Bool.not_eq_true, Bool.and_eq_false_iff] at h2
          have hchk : ∀ x ∈ s.books, x.id ≠ id →
              (updatedBook bk d).isbn.isSome = true →
              x.isbn = (updatedBook bk d).isbn → False := by
            intro x hx hxid hsome heq
            rcases h2 with h2 | h2
            · rw [h2] at hsome
              exact absurd hsome (by simp)
            · rw [List.any_eq_false] at h2
              refine h2 x hx ?_
              rw [Bool.and_eq_true]
              exact ⟨bne_iff_ne.mpr hxid, beq_iff_eq.mpr heq⟩
          refine List.Pairwise.imp_of_mem ?_ (h.and (idsNodup_pairwise hnd))
          intro a b ha hb hab
          obtain ⟨hok, hne⟩ := hab
          by_cases hai : (a.id == id) = true <;> by_cases hbi : (b.id == id) = true
          · exact absurd ((beq_iff_eq.mp hai).trans (beq_iff_eq.mp hbi).symm) hne
          · rw [if_pos hai, if_neg hbi]
            intro hsome heq
            exact hchk b hb (by simpa using hbi) hsome heq.symm
          · rw [if_neg hai, if_pos hbi]
            intro hsome heq
            exact hchk a ha (by simpa using hai) (heq ▸ hsome) heq
          · rw [if_neg hai, if_neg hbi]
            exact hok
  have hcre : ∀ s now d, noDupIsbn s.books = true →
      noDupIsbn (create_book s now d).2.books = true := by
    intro s now d h
    unfold create_book
    by_cases h1 : d.isEmpty = true
    · rw [if_pos h1]; exact h
    · rw [if_neg h1]
      by_cases h2 : (!truthy d.title || !truthy d.author) = true
      · rw [if_pos h2]; exact h
      · rw [if_neg h2]
        by_cases h3 : (truthy d.isbn && s.books.any (fun b => b.isbn == d.isbn)) = true
        · rw [if_pos h3]; exact h
        · rw [if_neg h3]
          by_cases h4 : (d.isbn.isSome && s.books.any (fun c => c.isbn == d.isbn)) = true
          · rw [if_pos h4]; exact h
          · rw [if_neg h4]
            show noDupIsbn (s.books ++ [freshBook s now d]) = true
            rw [noDupIsbn_iff_pairwise] at h ⊢
            rw [List.pairwise_append]
            refine ⟨h, List.pairwise_singleton _ _, ?_⟩
            intro a ha b hb
            rw [List.mem_singleton] at hb
            subst hb
            intro hsome heq
            rw [Bool.not_eq_true, Bool.and_eq_false_iff] at h4
            have hfb : (freshBook s now d).isbn = d.isbn := rfl
            rw [hfb] at heq
            rcases h4 with h4 | h4
            · rw [heq] at hsome
              rw [h4] at hsome
              exact absurd hsome (by simp)
            · rw [List.any_eq_false] at h4
              exact h4 a ha (by simp [heq])
  have hdel : ∀ s id, noDupIsbn s.books = true →
      noDupIsbn (delete_book s id).2.books = true := by
    intro s id h
    unfold delete_book
    cases hfind : s.books.find? (fun b => b.id == id) with
    | none => exact h
    | some bk =>
      rw [noDupIsbn_iff_pairwise] at h ⊢
      exact List.Pairwise.sublist (List.filter_sublist _) h
  exact ⟨hcre, hupd, hdel, fun s id d c hnd h _ _ _ => hupd s id d hnd h⟩

/-- C1 witness: the update of the isbn-less record carrying the Dune
record's isbn `111` (the claim's "in particular" call) leaves the
invariant intact — the commit fails and persists nothing — and a
create and a delete preserve it likewise. -/
theorem isbn_unique_invariant_witness :
    noDupIsbn (update_book sTwo 2 dIsbn111).2.books = true ∧
    noDupIsbn (create_book sDune 0 dNew).2.books = true ∧
    noDupIsbn (delete_book sDune 1).2.books = true :=
  ⟨isbn_unique_invariant.2.2.2 sTwo 2 dIsbn111 bDune (by decide) (by decide)
      (by decide) (by decide) rfl,
   isbn_unique_invariant.1 sDune 0 dNew (by decide),
   isbn_unique_invariant.2.2.1 sDune 1 (by decide)⟩

/-- C2 counterexample: from a store of valid rows, an update whose
input maps title to the empty string succeeds and persists a Book with
an empty title — the invariant does not survive update. -/
theorem nonempty_fields_cex :
    nonEmptyTA sDune.books = true ∧
    (update_book sDune 1 dEmptyTitle).1.isOk = true ∧
    nonEmptyTA (update_book sDune 1 dEmptyTitle).2.books = false := by decide

/-- C2 (amended): create validates title and author, so create and
delete preserve the invariant that every persisted Book has a
non-empty title and author; update applies provided fields without
re-validation and can persist empty values. -/
theorem nonempty_fields_create_delete :
    (∀ s now d, nonEmptyTA s.books = true →
      nonEmptyTA (create_book s now d).2.books = true) ∧
    (∀ s id, nonEmptyTA s.books = true →
      nonEmptyTA (delete_book s id).2.books = true) := by
  constructor
  · intro s now d h
    unfold create_book
    by_cases h1 : d.isEmpty = true
    · rw [if_pos h1]; exact h
    · rw [if_neg h1]
      by_cases h2 : (!truthy d.title || !truthy d.author) = true
      · rw [if_pos h2]; exact h
      · rw [if_neg h2]
        by_cases h3 : (truthy d.isbn && s.books.any (fun b => b.isbn == d.isbn)) = true
        · rw [if_pos h3]; exact h
        · rw [if_neg h3]
          by_cases h4 : (d.isbn.isSome && s.books.any (fun c => c.isbn == d.isbn)) = true
          · rw [if_pos h4]; exact h
          · rw [if_neg h4]
            show nonEmptyTA (s.books ++ [freshBook s now d]) = true
            have htt : truthy d.title = true := by
              cases hb : truthy d.title
              · exact absurd (by rw [hb]; simp) h2
              · rfl
            have hta : truthy d.author = true := by
              cases hb : truthy d.author
              · exact absurd (by rw [hb]; simp) h2
              · rfl
            unfold nonEmptyTA at h ⊢
            rw [List.all_append, h, Bool.true_and]
            cases hdt : d.title with
            | none => rw [hdt] at htt; simp [truthy] at htt
            | some t =>
              cases hda : d.author with
              | none => rw [hda] at hta; simp [truthy] at hta
              | some a2 =>
                rw [hdt] at htt
                rw [hda] at hta
                simp only [List.all_cons, List.all_nil, Bool.and_true]
                rw [Bool.and_eq_true]
                refine ⟨?_, ?_⟩
                · show ((freshBook s now d).title != "") = true
                  simp only [freshBook, hdt, Option.getD_some]
                  exact htt
                · show ((freshBook s now d).author != "") = true
                  simp only [freshBook, hda, Option.getD_some]
                  exact hta
  · intro s id h
    unfold delete_book
    cases hfind : s.books.find? (fun b => b.id == id) with
    | none => exact h
    | some bk => exact all_filter_of_all h

/-- C2 witness: a create and a delete from the Dune store both leave
the non-empty-title-and-author invariant intact. -/
theorem nonempty_fields_create_delete_witness :
    nonEmptyTA (create_book sDune 0 dNew).2.books = true ∧
    nonEmptyTA (delete_book sDune 1).2.books = true :=
  ⟨nonempty_fields_create_delete.1 sDune 0 dNew (by decide),
   nonempty_fields_create_delete.2 sDune 1 (by decide)⟩

/-- C3 (amended): a search whose year parameter is a non-empty string
that `int()` cannot parse fails with the uncaught `ValueError` — a 500,
not the ValidationError 400 class. -/
theorem search_year_uncaught (s : Store) (q a : Option String) (y : String)
    (hy : y ≠ "") (hp : pyToInt? y = none) :
    search_books s q a (some y)
      = .error (.uncaught "invalid literal for int() with base 10") ∧
    (ApiError.uncaught "invalid literal for int() with base 10").status = 500 ∧
    ∀ m, ApiError.uncaught "invalid literal for int() with base 10"
      ≠ ApiError.badRequest m := by
  refine ⟨?_, rfl, fun m hc => ApiError.noConfusion hc⟩
  unfold search_books
  simp only [applyYear]
  rw [if_pos (by simpa [bne_iff_ne] using hy), hp]

/-- C3 counterexample: the year string `abc` makes search fail with the
uncaught conversion error, which is not a ValidationError response. -/
theorem search_year_not_validation_cex :
    search_books sDune none none (some "abc")
      = .error (.uncaught "invalid literal for int() with base 10") ∧
    (match search_books sDune none none (some "abc") with
     | .error (.badRequest _) => true
     | _ => false) = false := by decide

/-- C3 witness: the amended claim at the year string `abc`. -/
theorem search_year_uncaught_witness :
    search_books sDune none none (some "abc")
      = .error (.uncaught "invalid literal for int() with base 10") :=
  (search_year_uncaught sDune none none "abc" (by decide) (by decide)).1

/-- C7 (amended): for title and author filters containing no `LIKE`
wildcard (`%`, `_`) and a year filter that is absent, empty, or
parseable, search returns exactly the persisted Books satisfying the
conjunction of the provided filters under case-insensitive unanchored
substring semantics; with no filters it returns exactly `list()`. -/
theorem search_eq_spec_filter (s : Store) (q a y : Option String)
    (hq : q.all wildFree = true) (ha : a.all wildFree = true)
    (hy : y.all (fun t => t == "" || (pyToInt? t).isSome) = true) :
    search_books s q a y = .ok (s.books.filter (fun b => specMatch q a y b)) ∧
    search_books s none none none = .ok (get_books s) := by
  refine ⟨?_, rfl⟩
  unfold search_books
  rw [applyTitle_eq_filter hq, applyAuthor_eq_filter ha, List.filter_filter,
    applyYear_eq_filter hy, List.filter_filter]
  congr 1
  refine List.filter_congr (fun b _ => ?_)
  unfold specMatch
  cases h1 : specTitleMatch q b <;> cases h2 : specAuthorMatch a b <;>
    cases h3 : specYearMatch y b <;> simp [h1, h2, h3]

/-- C7 witness: the wildcard-free, case-changed filter `dUn` returns
exactly the rows whose title contains it case-insensitively. -/
theorem search_eq_spec_filter_witness :
    search_books sTwo (some "dUn") none none =
      .ok (sTwo.books.filter (fun b => specMatch (some "dUn") none none b)) :=
  (search_eq_spec_filter sTwo (some "dUn") none none (by decide) (by decide)
    (by decide)).1

/-- C7 counterexample: the title filter `A%B` — sent verbatim into the
`ilike` pattern — returns the row titled `AB`, which does not contain
`A%B` as a substring: search is not substring filtering on inputs
holding `LIKE` wildcards. -/
theorem search_wildcard_cex :
    search_books sAB (some "A%B") none none = .ok [bAB] ∧
    specMatch (some "A%B") none none bAB = false ∧
    containsSeq (lowerChars bAB.title) (lowerChars "A%B") = false := by decide

end BookApi
